import Mathlib

/-!
Verification of the talos-automation upgrade orchestrator
(`tools/talos-automation`): a shallow embedding of the two upgrade
controllers (`upgrades/kubernetes.go`, the Talos upgrader source file),
the webhook dispatch functions and the diagnostics summary of `main.go`.

Every external side effect (talosctl invocations, Image Factory calls,
cluster version queries) is recorded as an `Event` in an output trace,
and every fallible external outcome (command exit status, HTTP results,
log-file creation) is supplied by an explicit environment record, so the
Go control flow is translated line by line into pure functions.
-/

namespace TalosAutomation

/-- External side effects performed by the controllers.  An event is
recorded exactly when the corresponding external action is attempted:
`runUpgradeK8s` / `runUpgradeNode` when `cmd.Run()` is reached,
`createSchematic` when the Image Factory POST is issued,
`queryK8sCluster` for the kubeconfig-fetch + `/version` query chain of
`KubernetesUpgrader.GetCurrentVersion`, `queryTalosVersion` for
`talosctl version --short`, and the two `call…` markers when
`processUpgrade` / `processUpgradeWithTestOverrides` invokes the
respective upgrader. -/
inductive Event where
  | queryK8sCluster : Event
  | queryTalosVersion : Event
  | fetchBareMetalConfig : Event
  | createSchematic : Event
  | runUpgradeK8s (version node : String) (dryRun : Bool) : Event
  | runUpgradeNode (node image : String) : Event
  | callTalosUpgrade (version : String) : Event
  | callK8sUpgrade (version : String) : Event
deriving DecidableEq, Repr

/-- Mutating command-surface operations: `talosctl upgrade-k8s` and
`talosctl upgrade`. -/
def Event.isMutating : Event → Bool
  | .runUpgradeK8s _ _ _ => true
  | .runUpgradeNode _ _ => true
  | _ => false

/-- Image-build service invocation (Image Factory `POST /schematics`). -/
def Event.isImageBuild : Event → Bool
  | .createSchematic => true
  | _ => false

/-- Events belonging to the orchestration (Kubernetes) layer, including
the dispatch marker for invoking the Kubernetes upgrader. -/
def Event.isK8sLayer : Event → Bool
  | .callK8sUpgrade _ => true
  | .runUpgradeK8s _ _ _ => true
  | .queryK8sCluster => true
  | _ => false

/-- The real (non-dry-run) cluster-wide `upgrade-k8s` invocation. -/
def Event.isRealK8sUpgrade : Event → Bool
  | .runUpgradeK8s _ _ dryRun => !dryRun
  | _ => false

/-- The dry-run cluster-wide `upgrade-k8s` invocation. -/
def Event.isDryK8sUpgrade : Event → Bool
  | .runUpgradeK8s _ _ dryRun => dryRun
  | _ => false

/-- `strings.TrimPrefix(s, "v")`: both controllers only ever strip the
literal prefix `"v"` — the string with a leading `v` removed when one is
present, the string unchanged otherwise. -/
def trimV (s : String) : String :=
  match s.data with
  | 'v' :: rest => String.mk rest
  | _ => s

/-- Byte-wise three-way comparison, the semantics of Go
`strings.Compare` on the character lists of the two strings. -/
def goCompare : List Char → List Char → Ordering
  | [], [] => .eq
  | [], _ :: _ => .lt
  | _ :: _, [] => .gt
  | a :: as, b :: bs =>
    if a < b then .lt else if b < a then .gt else goCompare as bs

/-- `KubernetesUpgrader.isDowngrade`: `strings.Compare(current, target) > 0`. -/
def isDowngrade (current target : String) : Bool :=
  goCompare current.toList target.toList == .gt

/-- Matcher for the anchored body `(\d+)\.(\d+)\.(\d+)$` after the
optional leading `v` has been handled: maximal-munch digit groups are
exactly the regex semantics here because `.` is not a digit. -/
def matchVersionCore (l : List Char) : Bool :=
  match l.dropWhile Char.isDigit with
  | c1 :: s1 =>
    if c1 = '.' then
      match s1.dropWhile Char.isDigit with
      | c2 :: s2 =>
        if c2 = '.' then
          !(l.takeWhile Char.isDigit).isEmpty && !(s1.takeWhile Char.isDigit).isEmpty &&
            !(s2.takeWhile Char.isDigit).isEmpty && (s2.dropWhile Char.isDigit).isEmpty
        else false
      | [] => false
    else false
  | [] => false

/-- `isValidVersion` of both upgraders (the two methods are identical):
whether the string matches `^v?(\d+)\.(\d+)\.(\d+)$`.  A string starting
with `v` matches iff the remainder matches the body (the regex cannot
match the `v` with `\d+`), otherwise the whole string must match the
body. -/
def isValidVersion (v : String) : Bool :=
  match v.toList with
  | c :: rest => if c = 'v' then matchVersionCore rest else matchVersionCore (c :: rest)
  | [] => matchVersionCore []

/-- Declarative reading of the version pattern body: the character list
is three nonempty all-digit groups separated by dots. -/
def versionShape (l : List Char) : Prop :=
  ∃ d1 d2 d3 : List Char,
    (∀ c ∈ d1, c.isDigit = true) ∧ (∀ c ∈ d2, c.isDigit = true) ∧
    (∀ c ∈ d3, c.isDigit = true) ∧ d1 ≠ [] ∧ d2 ≠ [] ∧ d3 ≠ [] ∧
    l = d1 ++ '.' :: (d2 ++ '.' :: d3)

/-- Declarative reading of the whole regex `^v?\d+\.\d+\.\d+$`. -/
def matchesVersionRegex (v : String) : Prop :=
  versionShape v.toList ∨ ∃ rest, v.toList = 'v' :: rest ∧ versionShape rest

/-! ## Kubernetes (orchestration-layer) upgrade controller -/

/-- `KubernetesUpgrader` (upgrades/kubernetes.go). -/
structure KubernetesUpgrader where
  talosConfigPath : String
  logPath : String
  mockCurrentVersion : String

/-- `NewKubernetesUpgrader`: the mock override starts empty. -/
def NewKubernetesUpgrader (talosConfigPath logPath : String) : KubernetesUpgrader :=
  { talosConfigPath := talosConfigPath, logPath := logPath, mockCurrentVersion := "" }

/-- `SetMockCurrentVersion` (Go mutates the receiver; modelled as the
updated record). -/
def KubernetesUpgrader.SetMockCurrentVersion
    (k : KubernetesUpgrader) (version : String) : KubernetesUpgrader :=
  { k with mockCurrentVersion := version }

/-- Environment of outcomes of the external world seen by one run of the
Kubernetes upgrader.  `clusterVersion` is the combined outcome of the
live query chain `fetchKubeconfig` → `parseKubeconfigForCreds` →
`getAPIServerVersion` (the raw `gitVersion`, or the error of whichever
step failed); `createLogFile`/`runK8sCmd` are the outcomes of
`os.Create` and `cmd.Run()` in `runUpgradeCommand`, indexed by the
`dryRun` flag of the invocation. -/
structure K8sEnv where
  clusterVersion : Except String String
  createLogFile : Bool → Except String Unit
  runK8sCmd : Bool → Except String Unit

/-- `KubernetesUpgrader.GetCurrentVersion`: always performs the live
query chain (recording `queryK8sCluster`) regardless of
`executeCommands`; on success strips a leading `v` and applies the mock
override only when `executeCommands` is false and an override is set. -/
def KubernetesUpgrader.GetCurrentVersion (k : KubernetesUpgrader) (env : K8sEnv)
    (_node : String) (executeCommands : Bool) : Except String String × List Event :=
  match env.clusterVersion with
  | .error e => (.error e, [.queryK8sCluster])
  | .ok realVersion =>
    let cleanRealVersion := trimV realVersion
    if !executeCommands && k.mockCurrentVersion != "" then
      (.ok k.mockCurrentVersion, [.queryK8sCluster])
    else
      (.ok cleanRealVersion, [.queryK8sCluster])

/-- `KubernetesUpgrader.runUpgradeCommand`: creates the transcript log
file, returns before `cmd.Run()` when `executeCommands` is false, and
otherwise runs `talosctl upgrade-k8s` (recording the event exactly when
`cmd.Run()` is reached). -/
def KubernetesUpgrader.runUpgradeCommand (k : KubernetesUpgrader) (env : K8sEnv)
    (version node : String) (dryRun executeCommands : Bool) :
    Except String Unit × List Event :=
  match env.createLogFile dryRun with
  | .error e => (.error ("failed to create log file: " ++ e), [])
  | .ok _ =>
    if !executeCommands then (.ok (), [])
    else
      match env.runK8sCmd dryRun with
      | .error e =>
        (.error ("talosctl command failed: " ++ e), [.runUpgradeK8s version node dryRun])
      | .ok _ => (.ok (), [.runUpgradeK8s version node dryRun])

/-- `KubernetesUpgrader.UpgradeToVersion` (upgrades/kubernetes.go,
lines 34-105), translated branch by branch. -/
def KubernetesUpgrader.UpgradeToVersion (k : KubernetesUpgrader) (env : K8sEnv)
    (version controlPlaneNode : String) (executeCommands : Bool) :
    Except String Unit × List Event :=
  if !isValidVersion version then
    (.error ("invalid Kubernetes version format: " ++ version), [])
  else
    let cleanVersion := trimV version
    match k.GetCurrentVersion env controlPlaneNode executeCommands with
    | (.error e, tr0) =>
      if executeCommands then
        (.error ("cannot determine current Kubernetes version: " ++ e), tr0)
      else
        -- test mode proceeds with a warning and hits the dry-run return
        (.ok (), tr0)
    | (.ok currentVersion, tr0) =>
      if currentVersion == cleanVersion then (.ok (), tr0)
      else if isDowngrade currentVersion cleanVersion then
        (.error ("refusing to downgrade Kubernetes from " ++ currentVersion
                  ++ " to " ++ cleanVersion), tr0)
      else if !executeCommands then (.ok (), tr0)
      else
        match k.runUpgradeCommand env cleanVersion controlPlaneNode true executeCommands with
        | (.error e, tr1) => (.error ("dry-run failed: " ++ e), tr0 ++ tr1)
        | (.ok _, tr1) =>
          match k.runUpgradeCommand env cleanVersion controlPlaneNode false executeCommands with
          | (.error e, tr2) => (.error ("upgrade failed: " ++ e), tr0 ++ tr1 ++ tr2)
          | (.ok _, tr2) => (.ok (), tr0 ++ tr1 ++ tr2)

/-! ## Talos (OS-layer) upgrade controller -/

/-- `TalosUpgrader` (the GitHub client is folded into the environment). -/
structure TalosUpgrader where
  talosConfigPath : String
  logPath : String
  mockCurrentVersion : String

/-- `NewTalosUpgrader`: the mock override starts empty. -/
def NewTalosUpgrader (talosConfigPath logPath : String) : TalosUpgrader :=
  { talosConfigPath := talosConfigPath, logPath := logPath, mockCurrentVersion := "" }

/-- `SetMockCurrentVersion` for the Talos upgrader. -/
def TalosUpgrader.SetMockCurrentVersion
    (t : TalosUpgrader) (version : String) : TalosUpgrader :=
  { t with mockCurrentVersion := version }

/-- Environment of external outcomes for one run of the Talos upgrader:
`liveVersion` is the combined outcome of `talosctl version --short` plus
the `Client: Talos vX.Y.Z` regex parse; `bareMetalConfig` the outcome of
`GitHubClient.FetchBareMetalConfig`; `schematicID` the outcome of
`ImageFactoryClient.CreateSchematic`; the last two fields the outcomes
of `os.Create` and `cmd.Run()` in `upgradeNode`, per node. -/
structure TalosEnv where
  liveVersion : Except String String
  bareMetalConfig : Except String String
  schematicID : Except String String
  createNodeLogFile : String → Except String Unit
  runNodeUpgrade : String → Except String Unit

/-- `TalosUpgrader.GetCurrentVersion`: when `executeCommands` is false,
return the mock override if set and otherwise the fixed default
`"1.10.6"`, with no external call; in live mode run `talosctl version`
(recording `queryTalosVersion`).  `getCurrentVersion` in the source is a
trivial delegation to this method. -/
def TalosUpgrader.GetCurrentVersion (t : TalosUpgrader) (env : TalosEnv)
    (executeCommands : Bool) : Except String String × List Event :=
  if !executeCommands then
    if t.mockCurrentVersion != "" then (.ok t.mockCurrentVersion, [])
    else (.ok "1.10.6", [])
  else
    match env.liveVersion with
    | .error e => (.error e, [.queryTalosVersion])
    | .ok v => (.ok v, [.queryTalosVersion])

/-- `TalosUpgrader.upgradeNode`: creates the per-node transcript file
then runs `talosctl upgrade` (recording the event exactly when
`cmd.Run()` is reached). -/
def TalosUpgrader.upgradeNode (t : TalosUpgrader) (env : TalosEnv)
    (node installerImage _version : String) : Except String Unit × List Event :=
  match env.createNodeLogFile node with
  | .error e => (.error ("failed to create log file: " ++ e), [])
  | .ok _ =>
    match env.runNodeUpgrade node with
    | .error e =>
      (.error ("talosctl upgrade command failed for node " ++ node ++ ": " ++ e),
       [.runUpgradeNode node installerImage])
    | .ok _ => (.ok (), [.runUpgradeNode node installerImage])

/-- The installer image reference built for a live OS upgrade:
`fmt.Sprintf("factory.talos.dev/metal-installer-secureboot/%s:v%s", schematicID, cleanVersion)`. -/
def installerImageFor (schematicID cleanVersion : String) : String :=
  "factory.talos.dev/metal-installer-secureboot/" ++ schematicID ++ ":v" ++ cleanVersion

/-- The sequential per-node loop of `TalosUpgrader.UpgradeToVersion`
(lines 124-132): upgrade each node in list order, aborting at the first
failure with an error naming the failing node. -/
def TalosUpgrader.upgradeNodes (t : TalosUpgrader) (env : TalosEnv)
    (installerImage version : String) : List String → Except String Unit × List Event
  | [] => (.ok (), [])
  | node :: rest =>
    match t.upgradeNode env node installerImage version with
    | (.error e, tr) => (.error ("failed to upgrade node " ++ node ++ ": " ++ e), tr)
    | (.ok _, tr) =>
      match t.upgradeNodes env installerImage version rest with
      | (res, tr2) => (res, tr ++ tr2)

/-- `TalosUpgrader.UpgradeToVersion`, translated branch by branch. -/
def TalosUpgrader.UpgradeToVersion (t : TalosUpgrader) (env : TalosEnv)
    (version : String) (nodes : List String) (_githubOwner _githubRepo : String)
    (executeCommands : Bool) : Except String Unit × List Event :=
  if !isValidVersion version then
    (.error ("invalid Talos version format: " ++ version), [])
  else
    let cleanVersion := trimV version
    match t.GetCurrentVersion env executeCommands with
    | (.error e, tr0) =>
      if executeCommands then
        (.error ("cannot determine current Talos version: " ++ e), tr0)
      else (.ok (), tr0)
    | (.ok currentVersion, tr0) =>
      if currentVersion == cleanVersion then (.ok (), tr0)
      else if !executeCommands then (.ok (), tr0)
      else
        match env.bareMetalConfig with
        | .error e =>
          (.error ("failed to fetch bare-metal config: " ++ e),
           tr0 ++ [.fetchBareMetalConfig])
        | .ok _ =>
          match env.schematicID with
          | .error e =>
            (.error ("failed to create schematic: " ++ e),
             tr0 ++ [.fetchBareMetalConfig, .createSchematic])
          | .ok schematicID =>
            let installerImage := installerImageFor schematicID cleanVersion
            match t.upgradeNodes env installerImage cleanVersion nodes with
            | (res, tr1) => (res, tr0 ++ [.fetchBareMetalConfig, .createSchematic] ++ tr1)

/-! ## Webhook dispatch (`main.go`) -/

/-- `repo.Versions` as fetched from `track-versions.yaml`. -/
structure Versions where
  talosVersion : String
  kubernetesVersion : String

/-- The runtime `Config` of `main.go` (fields read from the
environment at startup). -/
structure Config where
  webhookSecret : String
  talosConfigPath : String
  logPath : String
  githubToken : String
  githubOwner : String
  githubRepo : String
  port : String
  diagnosticsToken : String

/-- External outcomes seen by one dispatch: the version fetch from
GitHub, the talosconfig parse, the two node lookups, and the two
controllers' environments. -/
structure MainEnv where
  fetchVersions : Except String Versions
  parseConfig : Except String Unit
  getAllNodes : Except String (List String)
  getFirstControlPlaneNode : Except String String
  talosEnv : TalosEnv
  k8sEnv : K8sEnv

/-- The dispatch skeleton shared verbatim by `processUpgrade` and
`processUpgradeWithTestOverrides` (the two Go functions are line-level
duplicates that differ only in the upgraders they construct and the
`executeCommands` flag): fetch versions, parse the talosconfig, look up
the nodes, then run the Talos upgrader and — only if it succeeded — the
Kubernetes upgrader.  The `call…` marker events record the moment each
upgrader is invoked. -/
def runDispatch (cfg : Config) (env : MainEnv) (talosUpgrader : TalosUpgrader)
    (k8sUpgrader : KubernetesUpgrader) (exec : Bool) : Except String Unit × List Event :=
  match env.fetchVersions with
  | .error e => (.error ("failed to fetch versions: " ++ e), [])
  | .ok versions =>
    match env.parseConfig with
    | .error e => (.error ("failed to parse talos config: " ++ e), [])
    | .ok _ =>
      match env.getAllNodes with
      | .error e => (.error ("failed to get cluster nodes: " ++ e), [])
      | .ok allNodes =>
        match env.getFirstControlPlaneNode with
        | .error e => (.error ("failed to get control plane node: " ++ e), [])
        | .ok controlPlaneNode =>
          match talosUpgrader.UpgradeToVersion env.talosEnv versions.talosVersion
              allNodes cfg.githubOwner cfg.githubRepo exec with
          | (.error e, trT) =>
            (.error ("talos upgrade failed: " ++ e),
             Event.callTalosUpgrade versions.talosVersion :: trT)
          | (.ok _, trT) =>
            match k8sUpgrader.UpgradeToVersion env.k8sEnv versions.kubernetesVersion
                controlPlaneNode exec with
            | (.error e, trK) =>
              (.error ("kubernetes upgrade failed: " ++ e),
               Event.callTalosUpgrade versions.talosVersion :: trT
                 ++ Event.callK8sUpgrade versions.kubernetesVersion :: trK)
            | (.ok _, trK) =>
              (.ok (),
               Event.callTalosUpgrade versions.talosVersion :: trT
                 ++ Event.callK8sUpgrade versions.kubernetesVersion :: trK)

/-- `processUpgrade` (main.go lines 218-269): the dispatch skeleton with
freshly constructed upgraders (no overrides) and
`executeCommands = true`. -/
def processUpgrade (cfg : Config) (env : MainEnv) : Except String Unit × List Event :=
  runDispatch cfg env (NewTalosUpgrader cfg.talosConfigPath cfg.logPath)
    (NewKubernetesUpgrader cfg.talosConfigPath cfg.logPath) true

/-- The Talos test-override logic of `processUpgradeWithTestOverrides`
(main.go lines 176-186). -/
def applyTalosTestOverride (t : TalosUpgrader) (currentTalos scenario : String) :
    TalosUpgrader :=
  if currentTalos != "" then t.SetMockCurrentVersion currentTalos
  else if scenario == "talos-upgrade" || scenario == "both-upgrade" then
    t.SetMockCurrentVersion "1.10.5"
  else t

/-- The Kubernetes test-override logic of
`processUpgradeWithTestOverrides` (main.go lines 198-208). -/
def applyK8sTestOverride (k : KubernetesUpgrader) (currentK8s scenario : String) :
    KubernetesUpgrader :=
  if currentK8s != "" then k.SetMockCurrentVersion currentK8s
  else if scenario == "k8s-upgrade" || scenario == "both-upgrade" then
    k.SetMockCurrentVersion "1.33.2"
  else k

/-- `processUpgradeWithTestOverrides` (main.go lines 141-216): the same
dispatch skeleton with mock current-version overrides applied and
`executeCommands = false` for both controllers. -/
def processUpgradeWithTestOverrides (cfg : Config) (env : MainEnv)
    (currentK8s currentTalos scenario : String) : Except String Unit × List Event :=
  runDispatch cfg env
    (applyTalosTestOverride (NewTalosUpgrader cfg.talosConfigPath cfg.logPath)
      currentTalos scenario)
    (applyK8sTestOverride (NewKubernetesUpgrader cfg.talosConfigPath cfg.logPath)
      currentK8s scenario)
    false

/-! ## Diagnostics endpoint and its summary (`main.go`) -/

/-- The fixed key list inspected by `checkAllTestsPass`
(main.go line 468). -/
def checkedTests : List String :=
  ["github_api", "talos_config", "bare_metal_config", "image_factory",
   "cluster_versions", "k8s_upgrade_test", "talos_upgrade_test"]

/-- `checkAllTestsPass`: a results map is modelled as an association
list from result key to the optional `status` field of that entry (the
`upgrade_decisions` entry has no `status` field).  A key that is absent,
or whose entry has no `status` field, is treated as passing — exactly
the Go loop, which only fails on an existing entry whose `status`
differs from `"success"`. -/
def checkAllTestsPass (results : List (String × Option String)) : Bool :=
  checkedTests.all fun test =>
    match results.find? (fun p => p.1 == test) with
    | some p =>
      match p.2 with
      | some status => status == "success"
      | none => true
    | none => true

/-- External outcomes for `diagnosticsEndpoint`: the dispatch
environment (shared with `processUpgradeWithTestOverrides`, which the
handler invokes), plus the handler's own bare-metal-config fetch and
Image Factory probe. -/
structure DiagEnv where
  main : MainEnv
  bareMetal : Except String String
  imageFactory : Except String String

/-- The sub-result keys and status fields written by
`diagnosticsEndpoint` (main.go lines 276-465) before the `summary`
entry is added: `github_api`, `talos_config`, `bare_metal_config`,
`image_factory` (skipped when the bare-metal fetch failed),
`cluster_versions` and `upgrade_test` (only when the talosconfig
parsed; `cluster_versions` always reports success there, and
`upgrade_test` reports the outcome of
`processUpgradeWithTestOverrides`), and `upgrade_decisions` (no status
field, only when both the version fetch and the parse succeeded). -/
def diagnosticsResults (cfg : Config) (env : DiagEnv)
    (scenario currentK8s currentTalos : String) : List (String × Option String) :=
  [("github_api",
    some (match env.main.fetchVersions with | .ok _ => "success" | .error _ => "failed")),
   ("talos_config",
    some (match env.main.parseConfig with | .ok _ => "success" | .error _ => "failed")),
   ("bare_metal_config",
    some (match env.bareMetal with | .ok _ => "success" | .error _ => "failed")),
   ("image_factory",
    some (match env.bareMetal with
          | .error _ => "skipped"
          | .ok _ => match env.imageFactory with | .ok _ => "success" | .error _ => "failed"))]
  ++ (match env.main.parseConfig with
      | .error _ => []
      | .ok _ =>
        [("cluster_versions", some "success"),
         ("upgrade_test",
          some (match (processUpgradeWithTestOverrides cfg env.main
                        currentK8s currentTalos scenario).1 with
                | .ok _ => "success"
                | .error _ => "failed"))])
  ++ (match env.main.fetchVersions, env.main.parseConfig with
      | .ok _, .ok _ => [("upgrade_decisions", none)]
      | _, _ => [])

/-- The `ready` flag of the diagnostics `summary` block:
`checkAllTestsPass` applied to the results accumulated so far. -/
def diagnosticsReady (cfg : Config) (env : DiagEnv)
    (scenario currentK8s currentTalos : String) : Bool :=
  checkAllTestsPass (diagnosticsResults cfg env scenario currentK8s currentTalos)

/-- Success test for an external outcome. -/
def exOk {α : Type} : Except String α → Bool
  | .ok _ => true
  | .error _ => false

/-- Every real (non-dry-run) `upgrade-k8s` invocation in the trace is
preceded by a dry-run `upgrade-k8s` invocation. -/
def dryRunPrecedesReal (tr : List Event) : Prop :=
  ∀ i : Fin tr.length, (tr.get i).isRealK8sUpgrade = true →
    ∃ j : Fin tr.length, j.1 < i.1 ∧ (tr.get j).isDryK8sUpgrade = true

/-! ## Concrete fixtures (used by the witness theorems) -/

/-- A Kubernetes upgrader with no mock override. -/
def kW : KubernetesUpgrader := NewKubernetesUpgrader "/etc/talosconfig" "/var/log"

/-- A Talos upgrader with no mock override. -/
def tW : TalosUpgrader := NewTalosUpgrader "/etc/talosconfig" "/var/log"

/-- A Kubernetes environment whose live version query yields `raw` and
whose commands all succeed. -/
def envOkK8s (raw : String) : K8sEnv :=
  { clusterVersion := .ok raw
    createLogFile := fun _ => .ok ()
    runK8sCmd := fun _ => .ok () }

/-- A Kubernetes environment whose live version query fails. -/
def envErrK8s : K8sEnv :=
  { clusterVersion := .error "connection refused"
    createLogFile := fun _ => .ok ()
    runK8sCmd := fun _ => .ok () }

/-- A Kubernetes environment whose dry-run `upgrade-k8s` command
fails. -/
def envDryFailK8s : K8sEnv :=
  { clusterVersion := .ok "v1.33.0"
    createLogFile := fun _ => .ok ()
    runK8sCmd := fun dryRun => if dryRun then .error "preflight checks failed" else .ok () }

/-- A Talos environment where everything succeeds and the live version
is `1.10.6`. -/
def envOkTalos : TalosEnv :=
  { liveVersion := .ok "1.10.6"
    bareMetalConfig := .ok "customization:\n  systemExtensions: []"
    schematicID := .ok "abc123"
    createNodeLogFile := fun _ => .ok ()
    runNodeUpgrade := fun _ => .ok () }

/-- A Talos environment where the upgrade of node `n2` fails. -/
def envFailN2Talos : TalosEnv :=
  { liveVersion := .ok "1.10.6"
    bareMetalConfig := .ok "customization:\n  systemExtensions: []"
    schematicID := .ok "abc123"
    createNodeLogFile := fun _ => .ok ()
    runNodeUpgrade := fun n => if n == "n2" then .error "exit status 1" else .ok () }

/-- A concrete runtime configuration. -/
def cfgW : Config :=
  { webhookSecret := "s", talosConfigPath := "/etc/talosconfig", logPath := "/var/log"
    githubToken := "t", githubOwner := "o", githubRepo := "r"
    port := "3847", diagnosticsToken := "d" }

/-- A dispatch environment where setup succeeds, the Talos layer needs
and performs an upgrade, and the Kubernetes layer upgrade succeeds. -/
def mainEnvW : MainEnv :=
  { fetchVersions := .ok { talosVersion := "1.11.0", kubernetesVersion := "1.33.4" }
    parseConfig := .ok ()
    getAllNodes := .ok ["n1", "n2"]
    getFirstControlPlaneNode := .ok "n1"
    talosEnv := envOkTalos
    k8sEnv := envOkK8s "v1.33.0" }

/-- A dispatch environment identical to `mainEnvW` except that the
Talos per-node upgrade fails on `n2`. -/
def mainEnvFailW : MainEnv :=
  { mainEnvW with talosEnv := envFailN2Talos }

/-- A diagnostics environment where every infrastructure probe succeeds
but the tracked Talos version is malformed, so the `upgrade_test`
sub-check fails. -/
def diagEnvW : DiagEnv :=
  { main :=
      { fetchVersions := .ok { talosVersion := "not-a-version", kubernetesVersion := "1.33.4" }
        parseConfig := .ok ()
        getAllNodes := .ok ["n1", "n2"]
        getFirstControlPlaneNode := .ok "n1"
        talosEnv := envOkTalos
        k8sEnv := envOkK8s "v1.33.0" }
    bareMetal := .ok "customization:\n  systemExtensions: []"
    imageFactory := .ok "abc123" }

/-! ## Supporting lemmas -/

theorem goCompare_self (l : List Char) : goCompare l l = .eq := by
  induction l with
  | nil => rfl
  | cons a as ih =>
    unfold goCompare
    rw [if_neg (lt_irrefl a), if_neg (lt_irrefl a)]
    exact ih

theorem isDowngrade_ne {a b : String} (h : isDowngrade a b = true) : (a == b) = false := by
  cases hab : a == b with
  | false => rfl
  | true =>
    exfalso
    have hEq : a = b := eq_of_beq hab
    subst hEq
    unfold isDowngrade at h
    rw [goCompare_self] at h
    exact absurd h (by decide)

theorem k8s_getCurrentVersion_trace (k : KubernetesUpgrader) (env : K8sEnv)
    (node : String) (exec : Bool) :
    (k.GetCurrentVersion env node exec).2 = [.queryK8sCluster] := by
  unfold KubernetesUpgrader.GetCurrentVersion
  rcases h : env.clusterVersion with e | v
  · rfl
  · dsimp only
    split <;> rfl

theorem k8s_getCurrentVersion_ok (k : KubernetesUpgrader) (env : K8sEnv) (node : String)
    (exec : Bool) (current : String)
    (h : (k.GetCurrentVersion env node exec).1 = .ok current) :
    k.GetCurrentVersion env node exec = (.ok current, [.queryK8sCluster]) :=
  Prod.ext h (k8s_getCurrentVersion_trace k env node exec)

theorem takeWhile_append_eq (p : Char → Bool) (xs : List Char) (y : Char) (ys : List Char)
    (hxs : ∀ x ∈ xs, p x = true) (hy : p y = false) :
    (xs ++ y :: ys).takeWhile p = xs ∧ (xs ++ y :: ys).dropWhile p = y :: ys := by
  induction xs with
  | nil => simp [List.takeWhile_cons, List.dropWhile_cons, hy]
  | cons a as ih =>
    have ha : p a = true := hxs a (by simp)
    have hrest := ih (fun x hx => hxs x (by simp [hx]))
    simp [List.takeWhile_cons, List.dropWhile_cons, ha, hrest.1, hrest.2]

theorem matchVersionCore_iff (l : List Char) :
    matchVersionCore l = true ↔ versionShape l := by
  constructor
  · intro h
    unfold matchVersionCore at h
    split at h
    case h_2 => exact absurd h (by simp)
    case h_1 c1 s1 h1 =>
      split at h
      case isFalse => exact absurd h (by simp)
      case isTrue hc1 =>
        subst hc1
        split at h
        case h_2 => exact absurd h (by simp)
        case h_1 c2 s2 h2 =>
          split at h
          case isFalse => exact absurd h (by simp)
          case isTrue hc2 =>
            subst hc2
            simp only [Bool.and_eq_true, Bool.not_eq_true', List.isEmpty_eq_false,
              List.isEmpty_iff] at h
            obtain ⟨⟨⟨hne1, hne2⟩, hne3⟩, hnil⟩ := h
            refine ⟨l.takeWhile Char.isDigit, s1.takeWhile Char.isDigit, s2, ?_, ?_, ?_,
              hne1, hne2, ?_, ?_⟩
            · exact fun c hc => List.mem_takeWhile_imp hc
            · exact fun c hc => List.mem_takeWhile_imp hc
            · exact fun c hc => List.dropWhile_eq_nil_iff.mp hnil c hc
            · intro hs2
              subst hs2
              exact hne3 (by simp)
            · have hs1 : s1 = s1.takeWhile Char.isDigit ++ '.' :: s2 := by
                conv_lhs => rw [← List.takeWhile_append_dropWhile (p := Char.isDigit) (l := s1)]
                rw [h2]
              have hl : l = l.takeWhile Char.isDigit ++ '.' :: s1 := by
                conv_lhs => rw [← List.takeWhile_append_dropWhile (p := Char.isDigit) (l := l)]
                rw [h1]
              rw [← hs1]
              exact hl
  · rintro ⟨d1, d2, d3, hd1, hd2, hd3, hne1, hne2, hne3, rfl⟩
    have hdot : Char.isDigit '.' = false := by decide
    obtain ⟨ht1, hr1⟩ := takeWhile_append_eq Char.isDigit d1 '.' (d2 ++ '.' :: d3) hd1 hdot
    obtain ⟨ht2, hr2⟩ := takeWhile_append_eq Char.isDigit d2 '.' d3 hd2 hdot
    have ht3 : d3.takeWhile Char.isDigit = d3 := List.takeWhile_eq_self_iff.mpr hd3
    have hr3 : d3.dropWhile Char.isDigit = [] := List.dropWhile_eq_nil_iff.mpr hd3
    unfold matchVersionCore
    rw [hr1]
    dsimp only
    rw [if_pos rfl, hr2]
    dsimp only
    rw [if_pos rfl, ht1, ht2, ht3, hr3]
    simp [List.isEmpty_iff, hne1, hne2, hne3]

theorem isValidVersion_iff (v : String) :
    isValidVersion v = true ↔ matchesVersionRegex v := by
  unfold isValidVersion matchesVersionRegex
  cases hl : v.toList with
  | nil =>
    rw [show matchVersionCore [] = false from rfl]
    simp only [Bool.false_eq_true, false_iff]
    rintro (⟨d1, d2, d3, _, _, _, hne1, _, _, heq⟩ | ⟨rest, habs, _⟩)
    · rcases List.append_eq_nil.mp heq.symm with ⟨h1, h2⟩
      exact List.cons_ne_nil _ _ h2
    · exact List.cons_ne_nil _ _ habs.symm
  | cons c rest =>
    by_cases hc : c = 'v'
    · subst hc
      dsimp only
      rw [if_pos rfl, matchVersionCore_iff]
      constructor
      · intro h
        exact Or.inr ⟨rest, rfl, h⟩
      · rintro (⟨d1, d2, d3, hd1, _, _, hne1, _, _, heq⟩ | ⟨r, hr, hs⟩)
        · exfalso
          cases d1 with
          | nil => exact hne1 rfl
          | cons a d1' =>
            have ha : 'v' = a := by
              rw [List.cons_append] at heq
              injection heq
            have hdig : a.isDigit = true := hd1 a (by simp)
            rw [← ha] at hdig
            exact absurd hdig (by decide)
        · injection hr with hhead htail
          subst htail
          exact hs
    · dsimp only
      rw [if_neg hc, matchVersionCore_iff]
      constructor
      · intro h
        exact Or.inl h
      · rintro (h | ⟨r, hr, _⟩)
        · exact h
        · injection hr with hhead htail
          exact absurd hhead hc

/-! ## Claims -/

/-- C7: for every target version string not matching `^v?\d+\.\d+\.\d+$`
(missing segment, non-numeric component, empty string, ...), both
controllers' `UpgradeToVersion` returns an invalid-version-format error
with an empty trace — hence before any current-version resolution and
without any external call — regardless of `executeCommands`. -/
theorem c7_invalid_version_rejected (v : String) (hv : ¬ matchesVersionRegex v) :
    (∀ (k : KubernetesUpgrader) (env : K8sEnv) (node : String) (exec : Bool),
       k.UpgradeToVersion env v node exec =
         (.error ("invalid Kubernetes version format: " ++ v), [])) ∧
    (∀ (t : TalosUpgrader) (env : TalosEnv) (nodes : List String)
       (owner repo : String) (exec : Bool),
       t.UpgradeToVersion env v nodes owner repo exec =
         (.error ("invalid Talos version format: " ++ v), [])) := by
  have hval : isValidVersion v = false := by
    cases h : isValidVersion v with
    | false => rfl
    | true => exact absurd ((isValidVersion_iff v).mp h) hv
  refine ⟨fun k env node exec => ?_, fun t env nodes owner repo exec => ?_⟩
  · unfold KubernetesUpgrader.UpgradeToVersion
    rw [hval]
    rfl
  · unfold TalosUpgrader.UpgradeToVersion
    rw [hval]
    rfl

/-- Witness for C7 at the malformed target `"v1.12"` (missing patch
segment). -/
theorem c7_witness :
    ¬ matchesVersionRegex "v1.12" ∧
    kW.UpgradeToVersion (envOkK8s "v1.33.0") "v1.12" "n1" true =
      (.error ("invalid Kubernetes version format: " ++ "v1.12"), []) ∧
    tW.UpgradeToVersion envOkTalos "v1.12" ["n1", "n2"] "o" "r" true =
      (.error ("invalid Talos version format: " ++ "v1.12"), []) := by
  have hnm : ¬ matchesVersionRegex "v1.12" := fun h =>
    absurd ((isValidVersion_iff "v1.12").mpr h) (by decide)
  have h := c7_invalid_version_rejected "v1.12" hnm
  exact ⟨hnm, h.1 kW (envOkK8s "v1.33.0") "n1" true, h.2 tW envOkTalos ["n1", "n2"] "o" "r" true⟩

/-- C1: whenever the Kubernetes controller resolves a current version
and the cleaned target is lexicographically below it, `UpgradeToVersion`
returns the downgrade-rejection error and its trace contains no
`talosctl` upgrade invocation, for both values of `executeCommands`
(the check sits before the dry-run early return). -/
theorem c1_downgrade_rejected (k : KubernetesUpgrader) (env : K8sEnv)
    (version node current : String) (exec : Bool)
    (hvalid : isValidVersion version = true)
    (hcur : (k.GetCurrentVersion env node exec).1 = .ok current)
    (hdown : isDowngrade current (trimV version) = true) :
    (k.UpgradeToVersion env version node exec).1 =
      .error ("refusing to downgrade Kubernetes from " ++ current ++ " to " ++ trimV version) ∧
    (k.UpgradeToVersion env version node exec).2.all (fun e => !e.isMutating) = true := by
  have hpair := k8s_getCurrentVersion_ok k env node exec current hcur
  have hne : (current == trimV version) = false := isDowngrade_ne hdown
  unfold KubernetesUpgrader.UpgradeToVersion
  rw [hvalid]
  dsimp only
  rw [hpair]
  dsimp only
  rw [hne, hdown]
  exact ⟨rfl, rfl⟩

/-- Witness for C1: current `1.34.0`, target `1.33.2`, dry-run mode. -/
theorem c1_witness :
    (kW.UpgradeToVersion (envOkK8s "v1.34.0") "1.33.2" "n1" false).1 =
      .error ("refusing to downgrade Kubernetes from " ++ "1.34.0" ++ " to " ++ trimV "1.33.2") ∧
    (kW.UpgradeToVersion (envOkK8s "v1.34.0") "1.33.2" "n1" false).2.all
      (fun e => !e.isMutating) = true :=
  c1_downgrade_rejected kW (envOkK8s "v1.34.0") "1.33.2" "n1" "1.34.0" false rfl rfl rfl

/-- C9: if the Kubernetes controller's current-version resolution fails
while `executeCommands` is false, `UpgradeToVersion` skips the equality
and downgrade checks entirely and returns success with only the version
query in its trace — for every target version, so a non-live success
does not imply the downgrade check was evaluated. -/
theorem c9_error_skips_checks (k : KubernetesUpgrader) (env : K8sEnv)
    (version node e : String)
    (hvalid : isValidVersion version = true)
    (herr : (k.GetCurrentVersion env node false).1 = .error e) :
    k.UpgradeToVersion env version node false = (.ok (), [.queryK8sCluster]) := by
  have hpair : k.GetCurrentVersion env node false = (.error e, [.queryK8sCluster]) :=
    Prod.ext herr (k8s_getCurrentVersion_trace k env node false)
  unfold KubernetesUpgrader.UpgradeToVersion
  rw [hvalid]
  dsimp only
  rw [hpair]
  rfl

/-- Witness for C9: the version query fails, yet the dry run reports
success for a target the live cluster might well be ahead of. -/
theorem c9_witness :
    (kW.GetCurrentVersion envErrK8s "n1" false).1 = .error "connection refused" ∧
    kW.UpgradeToVersion envErrK8s "1.2.3" "n1" false = (.ok (), [.queryK8sCluster]) :=
  ⟨rfl, c9_error_skips_checks kW envErrK8s "1.2.3" "n1" "connection refused" rfl rfl⟩

theorem talos_getCurrentVersion_trace (t : TalosUpgrader) (env : TalosEnv) (exec : Bool) :
    (t.GetCurrentVersion env exec).2 = [] ∨
    (t.GetCurrentVersion env exec).2 = [.queryTalosVersion] := by
  unfold TalosUpgrader.GetCurrentVersion
  cases exec with
  | false =>
    cases hm : t.mockCurrentVersion != "" <;> simp [hm]
  | true =>
    rcases h : env.liveVersion with e | v <;> simp [h]

/-- C6: when the resolved current version equals the cleaned target,
both controllers' `UpgradeToVersion` returns success and the trace holds
no image-build invocation and no mutating command invocation, regardless
of `executeCommands`. -/
theorem c6_noop_on_equal :
    (∀ (t : TalosUpgrader) (env : TalosEnv) (v : String) (nodes : List String)
       (owner repo : String) (exec : Bool) (current : String),
       isValidVersion v = true →
       (t.GetCurrentVersion env exec).1 = .ok current →
       current = trimV v →
       (t.UpgradeToVersion env v nodes owner repo exec).1 = .ok () ∧
       (t.UpgradeToVersion env v nodes owner repo exec).2.all
         (fun e => !e.isMutating && !e.isImageBuild) = true) ∧
    (∀ (k : KubernetesUpgrader) (env : K8sEnv) (v node : String) (exec : Bool)
       (current : String),
       isValidVersion v = true →
       (k.GetCurrentVersion env node exec).1 = .ok current →
       current = trimV v →
       (k.UpgradeToVersion env v node exec).1 = .ok () ∧
       (k.UpgradeToVersion env v node exec).2.all
         (fun e => !e.isMutating && !e.isImageBuild) = true) := by
  constructor
  · intro t env v nodes owner repo exec current hv hcur heq
    have hpair : t.GetCurrentVersion env exec = (.ok current, (t.GetCurrentVersion env exec).2) :=
      Prod.ext hcur rfl
    have hbeq : (current == trimV v) = true := by rw [heq]; simp
    have hmain : t.UpgradeToVersion env v nodes owner repo exec =
        (.ok (), (t.GetCurrentVersion env exec).2) := by
      unfold TalosUpgrader.UpgradeToVersion
      rw [hv]
      try dsimp only
      rw [hpair]
      try dsimp only
      rw [hbeq]
      rfl
    refine ⟨by rw [hmain], ?_⟩
    rw [hmain]
    rcases talos_getCurrentVersion_trace t env exec with h | h <;> rw [h] <;> rfl
  · intro k env v node exec current hv hcur heq
    have hpair := k8s_getCurrentVersion_ok k env node exec current hcur
    have hbeq : (current == trimV v) = true := by rw [heq]; simp
    have hmain : k.UpgradeToVersion env v node exec = (.ok (), [.queryK8sCluster]) := by
      unfold KubernetesUpgrader.UpgradeToVersion
      rw [hv]
      try dsimp only
      rw [hpair]
      try dsimp only
      rw [hbeq]
      rfl
    rw [hmain]
    exact ⟨rfl, rfl⟩

/-- Witness for C6: the Talos layer already at the (mocked) target in
dry-run mode, and the Kubernetes layer already at the live target in
execute mode. -/
theorem c6_witness :
    ((tW.SetMockCurrentVersion "1.11.0").UpgradeToVersion envOkTalos "1.11.0"
        ["n1", "n2"] "o" "r" false).1 = .ok () ∧
    ((tW.SetMockCurrentVersion "1.11.0").UpgradeToVersion envOkTalos "1.11.0"
        ["n1", "n2"] "o" "r" false).2.all (fun e => !e.isMutating && !e.isImageBuild) = true ∧
    (kW.UpgradeToVersion (envOkK8s "v1.33.4") "1.33.4" "n1" true).1 = .ok () ∧
    (kW.UpgradeToVersion (envOkK8s "v1.33.4") "1.33.4" "n1" true).2.all
      (fun e => !e.isMutating && !e.isImageBuild) = true := by
  have h1 := c6_noop_on_equal.1 (tW.SetMockCurrentVersion "1.11.0") envOkTalos "1.11.0"
    ["n1", "n2"] "o" "r" false "1.11.0" rfl rfl rfl
  have h2 := c6_noop_on_equal.2 kW (envOkK8s "v1.33.4") "1.33.4" "n1" true "1.33.4" rfl rfl rfl
  exact ⟨h1.1, h1.2, h2.1, h2.2⟩

/-- C2: with `executeCommands` false, neither controller performs an
image build or a mutating command for a valid pair requiring an upgrade:
the Talos controller returns before the Image Factory step, the
Kubernetes controller returns at the dry-run early return, and
`runUpgradeCommand` itself never reaches `cmd.Run` when
`executeCommands` is false (its trace is empty). -/
theorem c2_dry_run_no_side_effects :
    (∀ (t : TalosUpgrader) (env : TalosEnv) (v : String) (nodes : List String)
       (owner repo current : String),
       isValidVersion v = true →
       (t.GetCurrentVersion env false).1 = .ok current →
       (current == trimV v) = false →
       (t.UpgradeToVersion env v nodes owner repo false).1 = .ok () ∧
       (t.UpgradeToVersion env v nodes owner repo false).2.all
         (fun e => !e.isMutating && !e.isImageBuild) = true) ∧
    (∀ (k : KubernetesUpgrader) (env : K8sEnv) (v node current : String),
       isValidVersion v = true →
       (k.GetCurrentVersion env node false).1 = .ok current →
       (current == trimV v) = false →
       isDowngrade current (trimV v) = false →
       (k.UpgradeToVersion env v node false).1 = .ok () ∧
       (k.UpgradeToVersion env v node false).2.all
         (fun e => !e.isMutating && !e.isImageBuild) = true) ∧
    (∀ (k : KubernetesUpgrader) (env : K8sEnv) (v node : String) (dryRun : Bool),
       (k.runUpgradeCommand env v node dryRun false).2 = []) := by
  refine ⟨?_, ?_, ?_⟩
  · intro t env v nodes owner repo current hv hcur hne
    have hpair : t.GetCurrentVersion env false = (.ok current, (t.GetCurrentVersion env false).2) :=
      Prod.ext hcur rfl
    have hmain : t.UpgradeToVersion env v nodes owner repo false =
        (.ok (), (t.GetCurrentVersion env false).2) := by
      unfold TalosUpgrader.UpgradeToVersion
      rw [hv]
      try dsimp only
      rw [hpair]
      try dsimp only
      rw [hne]
      rfl
    refine ⟨by rw [hmain], ?_⟩
    rw [hmain]
    rcases talos_getCurrentVersion_trace t env false with h | h <;> rw [h] <;> rfl
  · intro k env v node current hv hcur hne hnd
    have hpair := k8s_getCurrentVersion_ok k env node false current hcur
    have hmain : k.UpgradeToVersion env v node false = (.ok (), [.queryK8sCluster]) := by
      unfold KubernetesUpgrader.UpgradeToVersion
      rw [hv]
      try dsimp only
      rw [hpair]
      try dsimp only
      rw [hne, hnd]
      rfl
    rw [hmain]
    exact ⟨rfl, rfl⟩
  · intro k env v node dryRun
    unfold KubernetesUpgrader.runUpgradeCommand
    rcases h : env.createLogFile dryRun with e | u <;> simp [h]

/-- Witness for C2: both layers one version behind their target, in
dry-run mode. -/
theorem c2_witness :
    (tW.UpgradeToVersion envOkTalos "1.11.0" ["n1", "n2"] "o" "r" false).1 = .ok () ∧
    (tW.UpgradeToVersion envOkTalos "1.11.0" ["n1", "n2"] "o" "r" false).2.all
      (fun e => !e.isMutating && !e.isImageBuild) = true ∧
    (kW.UpgradeToVersion (envOkK8s "v1.33.0") "1.33.4" "n1" false).1 = .ok () ∧
    (kW.UpgradeToVersion (envOkK8s "v1.33.0") "1.33.4" "n1" false).2.all
      (fun e => !e.isMutating && !e.isImageBuild) = true ∧
    (kW.runUpgradeCommand (envOkK8s "v1.33.0") "1.33.4" "n1" true false).2 = [] := by
  have h1 := c2_dry_run_no_side_effects.1 tW envOkTalos "1.11.0" ["n1", "n2"] "o" "r"
    "1.10.6" rfl rfl rfl
  have h2 := c2_dry_run_no_side_effects.2.1 kW (envOkK8s "v1.33.0") "1.33.4" "n1"
    "1.33.0" rfl rfl rfl rfl
  have h3 := c2_dry_run_no_side_effects.2.2 kW (envOkK8s "v1.33.0") "1.33.4" "n1" true
  exact ⟨h1.1, h1.2, h2.1, h2.2, h3⟩

/-- C8 counterexample: in non-live mode with no override set, the
Kubernetes controller does query the live cluster (its trace holds the
query event) and returns the fetched version — two environments
reporting different cluster versions yield different results, so there
is no fixed default placeholder for this controller. -/
theorem c8_counterexample :
    kW.mockCurrentVersion = "" ∧
    (kW.GetCurrentVersion (envOkK8s "v9.9.9") "n1" false).2 = [Event.queryK8sCluster] ∧
    (kW.GetCurrentVersion (envOkK8s "v9.9.9") "n1" false).1 = .ok "9.9.9" ∧
    (kW.GetCurrentVersion (envOkK8s "v8.8.8") "n1" false).1 = .ok "8.8.8" :=
  ⟨rfl, rfl, rfl, rfl⟩

/-- C8 amended: in non-live mode the Talos (OS-layer) controller
resolves the current version as the mock override when set and otherwise
as the fixed default `1.10.6`, with no external call; the Kubernetes
(orchestration-layer) controller always queries the live cluster and
applies the mock override only after the query succeeds, returning the
fetched (cleaned) version when no override is set. -/
theorem c8_amended_resolution :
    (∀ (t : TalosUpgrader) (env : TalosEnv),
       t.GetCurrentVersion env false =
         (.ok (if t.mockCurrentVersion != "" then t.mockCurrentVersion else "1.10.6"), [])) ∧
    (∀ (k : KubernetesUpgrader) (env : K8sEnv) (node : String),
       (k.GetCurrentVersion env node false).2 = [Event.queryK8sCluster]) ∧
    (∀ (k : KubernetesUpgrader) (env : K8sEnv) (node raw : String),
       env.clusterVersion = .ok raw →
       (k.GetCurrentVersion env node false).1 =
         .ok (if k.mockCurrentVersion != "" then k.mockCurrentVersion else trimV raw)) := by
  refine ⟨fun t env => ?_, fun k env node => k8s_getCurrentVersion_trace k env node false,
    fun k env node raw h => ?_⟩
  · unfold TalosUpgrader.GetCurrentVersion
    cases hm : t.mockCurrentVersion != "" <;> simp [hm]
  · unfold KubernetesUpgrader.GetCurrentVersion
    rw [h]
    cases hm : k.mockCurrentVersion != "" <;> simp [hm]

/-- Witness for C8 (amended): no override set on either controller. -/
theorem c8_amended_witness :
    tW.GetCurrentVersion envOkTalos false = (.ok "1.10.6", []) ∧
    (kW.GetCurrentVersion (envOkK8s "v1.33.0") "n1" false).2 = [Event.queryK8sCluster] ∧
    (kW.GetCurrentVersion (envOkK8s "v1.33.0") "n1" false).1 = .ok "1.33.0" := by
  refine ⟨?_, c8_amended_resolution.2.1 kW (envOkK8s "v1.33.0") "n1", ?_⟩
  · exact c8_amended_resolution.1 tW envOkTalos
  · exact c8_amended_resolution.2.2 kW (envOkK8s "v1.33.0") "n1" "v1.33.0" rfl

theorem upgradeNode_ok (t : TalosUpgrader) (env : TalosEnv) (node img ver : String)
    (h1 : env.createNodeLogFile node = .ok ()) (h2 : env.runNodeUpgrade node = .ok ()) :
    t.upgradeNode env node img ver = (.ok (), [.runUpgradeNode node img]) := by
  unfold TalosUpgrader.upgradeNode
  rw [h1]
  try dsimp only
  rw [h2]

theorem upgradeNodes_all_ok (t : TalosUpgrader) (env : TalosEnv) (img ver : String)
    (nodes : List String)
    (h : ∀ n ∈ nodes, env.createNodeLogFile n = .ok () ∧ env.runNodeUpgrade n = .ok ()) :
    t.upgradeNodes env img ver nodes = (.ok (), nodes.map (fun n => .runUpgradeNode n img)) := by
  induction nodes with
  | nil => rfl
  | cons n rest ih =>
    obtain ⟨h1, h2⟩ := h n (by simp)
    have hrest := ih (fun m hm => h m (by simp [hm]))
    unfold TalosUpgrader.upgradeNodes
    rw [upgradeNode_ok t env n img ver h1 h2]
    try dsimp only
    rw [hrest]
    simp

theorem upgradeNodes_fail (t : TalosUpgrader) (env : TalosEnv) (img ver : String)
    (pre : List String) (n : String) (post : List String) (e : String) (trN : List Event)
    (hpre : ∀ m ∈ pre, env.createNodeLogFile m = .ok () ∧ env.runNodeUpgrade m = .ok ())
    (hfail : t.upgradeNode env n img ver = (.error e, trN)) :
    t.upgradeNodes env img ver (pre ++ n :: post) =
      (.error ("failed to upgrade node " ++ n ++ ": " ++ e),
       pre.map (fun m => .runUpgradeNode m img) ++ trN) := by
  induction pre with
  | nil =>
    rw [List.nil_append]
    unfold TalosUpgrader.upgradeNodes
    rw [hfail]
    rfl
  | cons m rest ih =>
    obtain ⟨h1, h2⟩ := hpre m (by simp)
    have hrest := ih (fun x hx => hpre x (by simp [hx]))
    rw [List.cons_append]
    unfold TalosUpgrader.upgradeNodes
    rw [upgradeNode_ok t env m img ver h1 h2]
    try dsimp only
    rw [hrest]
    simp

theorem talos_live_upgrade_shape (t : TalosUpgrader) (env : TalosEnv)
    (version current cfg sid : String) (nodes : List String) (owner repo : String)
    (hv : isValidVersion version = true)
    (hcur : env.liveVersion = .ok current)
    (hne : (current == trimV version) = false)
    (hbm : env.bareMetalConfig = .ok cfg)
    (hsc : env.schematicID = .ok sid) :
    t.UpgradeToVersion env version nodes owner repo true =
      ((t.upgradeNodes env (installerImageFor sid (trimV version)) (trimV version) nodes).1,
       [Event.queryTalosVersion, Event.fetchBareMetalConfig, Event.createSchematic] ++
         (t.upgradeNodes env (installerImageFor sid (trimV version)) (trimV version) nodes).2) := by
  have hgv : t.GetCurrentVersion env true = (.ok current, [.queryTalosVersion]) := by
    unfold TalosUpgrader.GetCurrentVersion
    rw [hcur]
    rfl
  unfold TalosUpgrader.UpgradeToVersion
  rw [hv]
  try dsimp only
  rw [hgv]
  try dsimp only
  rw [hne]
  try dsimp only
  rw [hbm]
  try dsimp only
  rw [hsc]
  rfl

/-- C4: in a live OS-layer upgrade, per-node commands are issued exactly
in the order of the supplied node list; when every node succeeds the
trace is the node list in order; when node `n` (after a successful
prefix `pre`) fails, `UpgradeToVersion` returns an error naming `n`, the
trace stops with `n` (no later node is invoked), and the trace shows the
earlier nodes invoked exactly once each (nothing is reverted). -/
theorem c4_sequential_node_order (t : TalosUpgrader) (env : TalosEnv)
    (version current cfg sid : String) (nodes : List String) (owner repo : String)
    (hv : isValidVersion version = true)
    (hcur : env.liveVersion = .ok current)
    (hne : (current == trimV version) = false)
    (hbm : env.bareMetalConfig = .ok cfg)
    (hsc : env.schematicID = .ok sid) :
    ((∀ n ∈ nodes, env.createNodeLogFile n = .ok () ∧ env.runNodeUpgrade n = .ok ()) →
       t.UpgradeToVersion env version nodes owner repo true =
         (.ok (), [Event.queryTalosVersion, Event.fetchBareMetalConfig, Event.createSchematic]
            ++ nodes.map (fun n =>
                 .runUpgradeNode n (installerImageFor sid (trimV version))))) ∧
    (∀ (pre : List String) (n : String) (post : List String) (e : String) (trN : List Event),
       nodes = pre ++ n :: post →
       (∀ m ∈ pre, env.createNodeLogFile m = .ok () ∧ env.runNodeUpgrade m = .ok ()) →
       t.upgradeNode env n (installerImageFor sid (trimV version)) (trimV version) =
         (.error e, trN) →
       t.UpgradeToVersion env version nodes owner repo true =
         (.error ("failed to upgrade node " ++ n ++ ": " ++ e),
          [Event.queryTalosVersion, Event.fetchBareMetalConfig, Event.createSchematic]
            ++ (pre.map (fun m => .runUpgradeNode m (installerImageFor sid (trimV version)))
                ++ trN))) := by
  have hshape := talos_live_upgrade_shape t env version current cfg sid nodes owner repo
    hv hcur hne hbm hsc
  constructor
  · intro hall
    rw [hshape, upgradeNodes_all_ok t env (installerImageFor sid (trimV version))
      (trimV version) nodes hall]
  · intro pre n post e trN hsplit hpre hfail
    subst hsplit
    rw [hshape, upgradeNodes_fail t env (installerImageFor sid (trimV version))
      (trimV version) pre n post e trN hpre hfail]

/-- Witness for C4: a three-node cluster where `n2` fails — `n1` is
invoked, `n2` fails and is named in the error, `n3` is never invoked —
and a two-node cluster where everything succeeds in order. -/
theorem c4_witness :
    tW.UpgradeToVersion envFailN2Talos "1.11.0" ["n1", "n2", "n3"] "o" "r" true =
      (.error ("failed to upgrade node " ++ "n2" ++ ": " ++
         "talosctl upgrade command failed for node n2: exit status 1"),
       [Event.queryTalosVersion, Event.fetchBareMetalConfig, Event.createSchematic]
         ++ ([Event.runUpgradeNode "n1" (installerImageFor "abc123" (trimV "1.11.0"))]
             ++ [Event.runUpgradeNode "n2" (installerImageFor "abc123" (trimV "1.11.0"))])) ∧
    tW.UpgradeToVersion envOkTalos "1.11.0" ["n1", "n2"] "o" "r" true =
      (.ok (), [Event.queryTalosVersion, Event.fetchBareMetalConfig, Event.createSchematic]
         ++ ["n1", "n2"].map (fun n =>
              .runUpgradeNode n (installerImageFor "abc123" (trimV "1.11.0")))) := by
  constructor
  · have h := (c4_sequential_node_order tW envFailN2Talos "1.11.0" "1.10.6"
      "customization:\n  systemExtensions: []" "abc123" ["n1", "n2", "n3"] "o" "r"
      rfl rfl rfl rfl rfl).2 ["n1"] "n2" ["n3"]
      "talosctl upgrade command failed for node n2: exit status 1"
      [Event.runUpgradeNode "n2" (installerImageFor "abc123" (trimV "1.11.0"))]
      rfl (by intro m hm; simp at hm; subst hm; exact ⟨rfl, rfl⟩) rfl
    simpa using h
  · have h := (c4_sequential_node_order tW envOkTalos "1.11.0" "1.10.6"
      "customization:\n  systemExtensions: []" "abc123" ["n1", "n2"] "o" "r"
      rfl rfl rfl rfl rfl).1 (fun n _ => ⟨rfl, rfl⟩)
    simpa using h

theorem runUpgradeCommand_trace_shape (k : KubernetesUpgrader) (env : K8sEnv)
    (v n : String) (dr : Bool) :
    (k.runUpgradeCommand env v n dr true).2 = [] ∨
    (k.runUpgradeCommand env v n dr true).2 = [.runUpgradeK8s v n dr] := by
  unfold KubernetesUpgrader.runUpgradeCommand
  rcases h : env.createLogFile dr with e | u
  · simp [h]
  · rcases h2 : env.runK8sCmd dr with e2 | u2 <;> simp [h, h2]

theorem runUpgradeCommand_ok_trace (k : KubernetesUpgrader) (env : K8sEnv)
    (v n : String) (dr : Bool)
    (h : (k.runUpgradeCommand env v n dr true).1 = .ok ()) :
    (k.runUpgradeCommand env v n dr true).2 = [.runUpgradeK8s v n dr] := by
  unfold KubernetesUpgrader.runUpgradeCommand at h ⊢
  rcases hc : env.createLogFile dr with e | u
  · rw [hc] at h
    simp at h
  · rw [hc] at h
    rcases hr : env.runK8sCmd dr with e2 | u2
    · rw [hr] at h
      simp at h
    · simp [hr]

theorem dryBeforeReal_query : dryRunPrecedesReal [Event.queryK8sCluster] := by
  intro i hi
  fin_cases i <;> simp [Event.isRealK8sUpgrade] at hi

theorem dryBeforeReal_query_dry (v n : String) :
    dryRunPrecedesReal [Event.queryK8sCluster, Event.runUpgradeK8s v n true] := by
  intro i hi
  fin_cases i <;> simp [Event.isRealK8sUpgrade] at hi

theorem dryBeforeReal_full (v n w m : String) :
    dryRunPrecedesReal
      [Event.queryK8sCluster, Event.runUpgradeK8s v n true, Event.runUpgradeK8s w m false] := by
  intro i hi
  fin_cases i
  · simp [Event.isRealK8sUpgrade] at hi
  · simp [Event.isRealK8sUpgrade] at hi
  · exact ⟨⟨1, by simp⟩, by simp, rfl⟩

theorem k8s_live_upgrade_shape (k : KubernetesUpgrader) (env : K8sEnv)
    (version node current : String)
    (hv : isValidVersion version = true)
    (hcur : (k.GetCurrentVersion env node true).1 = .ok current)
    (hne : (current == trimV version) = false)
    (hnd : isDowngrade current (trimV version) = false) :
    k.UpgradeToVersion env version node true =
      (match k.runUpgradeCommand env (trimV version) node true true with
       | (.error e, tr1) => (.error ("dry-run failed: " ++ e), [Event.queryK8sCluster] ++ tr1)
       | (.ok _, tr1) =>
         match k.runUpgradeCommand env (trimV version) node false true with
         | (.error e, tr2) =>
           (.error ("upgrade failed: " ++ e), [Event.queryK8sCluster] ++ tr1 ++ tr2)
         | (.ok _, tr2) => (.ok (), [Event.queryK8sCluster] ++ tr1 ++ tr2)) := by
  have hpair := k8s_getCurrentVersion_ok k env node true current hcur
  unfold KubernetesUpgrader.UpgradeToVersion
  rw [hv]
  try dsimp only
  rw [hpair]
  try dsimp only
  rw [hne, hnd]
  rfl

/-- C5: in live mode, the orchestration controller always issues the
dry-run `upgrade-k8s` invocation before the real one (every real
invocation in the trace is preceded by a dry-run invocation), and if the
dry-run invocation fails, `UpgradeToVersion` returns the dry-run-failed
error and no real invocation appears in the trace. -/
theorem c5_dry_run_gates_real (k : KubernetesUpgrader) (env : K8sEnv)
    (version node current : String)
    (hv : isValidVersion version = true)
    (hcur : (k.GetCurrentVersion env node true).1 = .ok current)
    (hne : (current == trimV version) = false)
    (hnd : isDowngrade current (trimV version) = false) :
    (∀ e, (k.runUpgradeCommand env (trimV version) node true true).1 = .error e →
       (k.UpgradeToVersion env version node true).1 = .error ("dry-run failed: " ++ e) ∧
       (k.UpgradeToVersion env version node true).2.all
         (fun ev => !ev.isRealK8sUpgrade) = true) ∧
    dryRunPrecedesReal (k.UpgradeToVersion env version node true).2 := by
  have hshape := k8s_live_upgrade_shape k env version node current hv hcur hne hnd
  rcases hd : k.runUpgradeCommand env (trimV version) node true true with ⟨rd, trd⟩
  have htrd : trd = [] ∨ trd = [.runUpgradeK8s (trimV version) node true] := by
    have := runUpgradeCommand_trace_shape k env (trimV version) node true
    rwa [hd] at this
  cases rd with
  | error e1 =>
    have hfull : k.UpgradeToVersion env version node true =
        (.error ("dry-run failed: " ++ e1), [Event.queryK8sCluster] ++ trd) := by
      rw [hshape, hd]
    constructor
    · intro e he
      dsimp only at he
      injection he with he1
      subst he1
      refine ⟨by rw [hfull], ?_⟩
      rw [hfull]
      rcases htrd with h | h <;> subst h <;> rfl
    · rw [hfull]
      rcases htrd with h | h <;> subst h
      · exact dryBeforeReal_query
      · exact dryBeforeReal_query_dry (trimV version) node
  | ok u =>
    have hok : (k.runUpgradeCommand env (trimV version) node true true).1 = .ok () := by
      rw [hd]
    have htrd1 : trd = [.runUpgradeK8s (trimV version) node true] := by
      have := runUpgradeCommand_ok_trace k env (trimV version) node true hok
      rwa [hd] at this
    subst htrd1
    constructor
    · intro e he
      simp at he
    · rcases hr : k.runUpgradeCommand env (trimV version) node false true with ⟨rr, trr⟩
      have htrr : trr = [] ∨ trr = [.runUpgradeK8s (trimV version) node false] := by
        have := runUpgradeCommand_trace_shape k env (trimV version) node false
        rwa [hr] at this
      cases rr with
      | error e2 =>
        have hfull : k.UpgradeToVersion env version node true =
            (.error ("upgrade failed: " ++ e2),
             [Event.queryK8sCluster] ++ [.runUpgradeK8s (trimV version) node true] ++ trr) := by
          rw [hshape, hd, hr]
        rw [hfull]
        rcases htrr with h | h <;> subst h
        · exact dryBeforeReal_query_dry (trimV version) node
        · exact dryBeforeReal_full (trimV version) node (trimV version) node
      | ok u2 =>
        have hfull : k.UpgradeToVersion env version node true =
            (.ok (),
             [Event.queryK8sCluster] ++ [.runUpgradeK8s (trimV version) node true] ++ trr) := by
          rw [hshape, hd, hr]
        rw [hfull]
        rcases htrr with h | h <;> subst h
        · exact dryBeforeReal_query_dry (trimV version) node
        · exact dryBeforeReal_full (trimV version) node (trimV version) node

/-- Witness for C5: a failing dry run blocks the real invocation, and a
fully successful run places the dry-run invocation before the real
one. -/
theorem c5_witness :
    (kW.UpgradeToVersion envDryFailK8s "1.33.4" "n1" true).1 =
      .error ("dry-run failed: " ++ ("talosctl command failed: " ++ "preflight checks failed")) ∧
    (kW.UpgradeToVersion envDryFailK8s "1.33.4" "n1" true).2.all
      (fun ev => !ev.isRealK8sUpgrade) = true ∧
    dryRunPrecedesReal (kW.UpgradeToVersion (envOkK8s "v1.33.0") "1.33.4" "n1" true).2 := by
  have h1 := (c5_dry_run_gates_real kW envDryFailK8s "1.33.4" "n1" "1.33.0" rfl rfl rfl rfl).1
    ("talosctl command failed: " ++ "preflight checks failed") rfl
  have h2 := (c5_dry_run_gates_real kW (envOkK8s "v1.33.0") "1.33.4" "n1" "1.33.0"
    rfl rfl rfl rfl).2
  exact ⟨h1.1, h1.2, h2⟩

theorem upgradeNode_trace_shape (t : TalosUpgrader) (env : TalosEnv)
    (node img ver : String) :
    (t.upgradeNode env node img ver).2 = [] ∨
    (t.upgradeNode env node img ver).2 = [.runUpgradeNode node img] := by
  unfold TalosUpgrader.upgradeNode
  rcases h : env.createNodeLogFile node with e | u
  · simp [h]
  · rcases h2 : env.runNodeUpgrade node with e2 | u2 <;> simp [h, h2]

theorem upgradeNodes_trace_no_k8s (t : TalosUpgrader) (env : TalosEnv)
    (img ver : String) (nodes : List String) :
    (t.upgradeNodes env img ver nodes).2.all (fun e => !e.isK8sLayer) = true := by
  induction nodes with
  | nil => rfl
  | cons n rest ih =>
    unfold TalosUpgrader.upgradeNodes
    rcases hn : t.upgradeNode env n img ver with ⟨rn, trn⟩
    have htrn : trn.all (fun e => !e.isK8sLayer) = true := by
      have h := upgradeNode_trace_shape t env n img ver
      rw [hn] at h
      dsimp only at h
      rcases h with h | h <;> subst h <;> rfl
    cases rn with
    | error e => simpa using htrn
    | ok u =>
      rcases hrest : t.upgradeNodes env img ver rest with ⟨rr, trr⟩
      rw [hrest] at ih
      simp_all

theorem talos_trace_no_k8s (t : TalosUpgrader) (env : TalosEnv) (v : String)
    (nodes : List String) (owner repo : String) (exec : Bool) :
    (t.UpgradeToVersion env v nodes owner repo exec).2.all (fun e => !e.isK8sLayer) = true := by
  cases hval : isValidVersion v with
  | false =>
    unfold TalosUpgrader.UpgradeToVersion
    rw [hval]
    rfl
  | true =>
    rcases hgv : t.GetCurrentVersion env exec with ⟨rg, tr0⟩
    have htr0 : tr0.all (fun e => !e.isK8sLayer) = true := by
      have h := talos_getCurrentVersion_trace t env exec
      rw [hgv] at h
      dsimp only at h
      rcases h with h | h <;> subst h <;> rfl
    have htr0m : ∀ x ∈ tr0, x.isK8sLayer = false := by
      intro x hx
      have hb := List.all_eq_true.mp htr0 x hx
      simpa using hb
    unfold TalosUpgrader.UpgradeToVersion
    rw [hval]
    try dsimp only
    rw [hgv]
    try dsimp only
    cases rg with
    | error e => cases exec <;> simp [htr0]
    | ok current =>
      cases hbeq : current == trimV v with
      | true => simp [hbeq, htr0]
      | false =>
        cases exec with
        | false => simp [hbeq, htr0]
        | true =>
          rcases hbm : env.bareMetalConfig with e | cfg
          · simp [hbeq, hbm, htr0, Event.isK8sLayer]
            exact htr0m
          · rcases hsc : env.schematicID with e2 | sid
            · simp [hbeq, hbm, hsc, htr0, Event.isK8sLayer]
              exact htr0m
            · rcases hnodes : t.upgradeNodes env (installerImageFor sid (trimV v))
                  (trimV v) nodes with ⟨rn, tr1⟩
              have htr1 : tr1.all (fun e => !e.isK8sLayer) = true := by
                have h := upgradeNodes_trace_no_k8s t env (installerImageFor sid (trimV v))
                  (trimV v) nodes
                rw [hnodes] at h
                exact h
              have htr1m : ∀ x ∈ tr1, x.isK8sLayer = false := by
                intro x hx
                have hb := List.all_eq_true.mp htr1 x hx
                simpa using hb
              simp [hbeq, hbm, hsc, hnodes, htr0, htr1, Event.isK8sLayer]
              exact ⟨htr0m, htr1m⟩

theorem runDispatch_shape (cfg : Config) (env : MainEnv) (vs : Versions)
    (nodes : List String) (cp : String) (tU : TalosUpgrader) (kU : KubernetesUpgrader)
    (exec : Bool)
    (hfv : env.fetchVersions = .ok vs) (hpc : env.parseConfig = .ok ())
    (hn : env.getAllNodes = .ok nodes) (hcp : env.getFirstControlPlaneNode = .ok cp) :
    runDispatch cfg env tU kU exec =
      (match tU.UpgradeToVersion env.talosEnv vs.talosVersion nodes
          cfg.githubOwner cfg.githubRepo exec with
       | (.error e, trT) =>
         (.error ("talos upgrade failed: " ++ e), .callTalosUpgrade vs.talosVersion :: trT)
       | (.ok _, trT) =>
         match kU.UpgradeToVersion env.k8sEnv vs.kubernetesVersion cp exec with
         | (.error e, trK) =>
           (.error ("kubernetes upgrade failed: " ++ e),
            .callTalosUpgrade vs.talosVersion :: trT
              ++ .callK8sUpgrade vs.kubernetesVersion :: trK)
         | (.ok _, trK) =>
           (.ok (), .callTalosUpgrade vs.talosVersion :: trT
              ++ .callK8sUpgrade vs.kubernetesVersion :: trK)) := by
  unfold runDispatch
  rw [hfv]
  try dsimp only
  rw [hpc]
  try dsimp only
  rw [hn]
  try dsimp only
  rw [hcp]

theorem dispatch_os_first (cfg : Config) (env : MainEnv) (vs : Versions)
    (nodes : List String) (cp : String) (tU : TalosUpgrader) (kU : KubernetesUpgrader)
    (exec : Bool)
    (hfv : env.fetchVersions = .ok vs) (hpc : env.parseConfig = .ok ())
    (hn : env.getAllNodes = .ok nodes) (hcp : env.getFirstControlPlaneNode = .ok cp) :
    (tU.UpgradeToVersion env.talosEnv vs.talosVersion nodes
       cfg.githubOwner cfg.githubRepo exec).2.all (fun e => !e.isK8sLayer) = true ∧
    (∀ e, (tU.UpgradeToVersion env.talosEnv vs.talosVersion nodes
            cfg.githubOwner cfg.githubRepo exec).1 = .error e →
       runDispatch cfg env tU kU exec =
         (.error ("talos upgrade failed: " ++ e),
          .callTalosUpgrade vs.talosVersion ::
            (tU.UpgradeToVersion env.talosEnv vs.talosVersion nodes
               cfg.githubOwner cfg.githubRepo exec).2) ∧
       (runDispatch cfg env tU kU exec).2.all (fun ev => !ev.isK8sLayer) = true) ∧
    ((tU.UpgradeToVersion env.talosEnv vs.talosVersion nodes
        cfg.githubOwner cfg.githubRepo exec).1 = .ok () →
       (runDispatch cfg env tU kU exec).2 =
         .callTalosUpgrade vs.talosVersion ::
           (tU.UpgradeToVersion env.talosEnv vs.talosVersion nodes
              cfg.githubOwner cfg.githubRepo exec).2
           ++ .callK8sUpgrade vs.kubernetesVersion ::
             (kU.UpgradeToVersion env.k8sEnv vs.kubernetesVersion cp exec).2) := by
  have hsh := runDispatch_shape cfg env vs nodes cp tU kU exec hfv hpc hn hcp
  rcases htal : tU.UpgradeToVersion env.talosEnv vs.talosVersion nodes
      cfg.githubOwner cfg.githubRepo exec with ⟨rt, trt⟩
  rw [htal] at hsh
  have hA1 : trt.all (fun e => !e.isK8sLayer) = true := by
    have h := talos_trace_no_k8s tU env.talosEnv vs.talosVersion nodes
      cfg.githubOwner cfg.githubRepo exec
    rw [htal] at h
    exact h
  have hA1m : ∀ x ∈ trt, x.isK8sLayer = false := by
    intro x hx
    have hb := List.all_eq_true.mp hA1 x hx
    simpa using hb
  refine ⟨hA1, ?_, ?_⟩
  · intro e he
    dsimp only at he
    subst he
    refine ⟨hsh, ?_⟩
    rw [hsh]
    simp [Event.isK8sLayer, hA1]
    exact hA1m
  · intro hok
    dsimp only at hok
    subst hok
    rcases hk : kU.UpgradeToVersion env.k8sEnv vs.kubernetesVersion cp exec with ⟨rk, trk⟩
    rw [hk] at hsh
    rw [hsh]
    cases rk <;> rfl

/-- C3: within one dispatch — `processUpgrade` in live mode and
`processUpgradeWithTestOverrides` in diagnostics mode — the OS-layer
upgrade runs to completion before the orchestration layer begins: the
Talos trace itself contains no Kubernetes-layer event; if the Talos
upgrader errors, the dispatch fails and its trace contains no
Kubernetes-layer event at all (the Kubernetes upgrader is never
invoked); if the Talos upgrader succeeds, the dispatch trace is the
complete Talos trace followed by the Kubernetes invocation marker and
the Kubernetes trace. -/
theorem c3_os_before_orchestration (cfg : Config) (env : MainEnv) (vs : Versions)
    (nodes : List String) (cp : String) (currentK8s currentTalos scenario : String)
    (hfv : env.fetchVersions = .ok vs) (hpc : env.parseConfig = .ok ())
    (hn : env.getAllNodes = .ok nodes) (hcp : env.getFirstControlPlaneNode = .ok cp) :
    ((NewTalosUpgrader cfg.talosConfigPath cfg.logPath).UpgradeToVersion env.talosEnv
       vs.talosVersion nodes cfg.githubOwner cfg.githubRepo true).2.all
         (fun e => !e.isK8sLayer) = true ∧
    (∀ e, ((NewTalosUpgrader cfg.talosConfigPath cfg.logPath).UpgradeToVersion env.talosEnv
            vs.talosVersion nodes cfg.githubOwner cfg.githubRepo true).1 = .error e →
       processUpgrade cfg env =
         (.error ("talos upgrade failed: " ++ e),
          .callTalosUpgrade vs.talosVersion ::
            ((NewTalosUpgrader cfg.talosConfigPath cfg.logPath).UpgradeToVersion env.talosEnv
               vs.talosVersion nodes cfg.githubOwner cfg.githubRepo true).2) ∧
       (processUpgrade cfg env).2.all (fun ev => !ev.isK8sLayer) = true) ∧
    (((NewTalosUpgrader cfg.talosConfigPath cfg.logPath).UpgradeToVersion env.talosEnv
        vs.talosVersion nodes cfg.githubOwner cfg.githubRepo true).1 = .ok () →
       (processUpgrade cfg env).2 =
         .callTalosUpgrade vs.talosVersion ::
           ((NewTalosUpgrader cfg.talosConfigPath cfg.logPath).UpgradeToVersion env.talosEnv
              vs.talosVersion nodes cfg.githubOwner cfg.githubRepo true).2
           ++ .callK8sUpgrade vs.kubernetesVersion ::
             ((NewKubernetesUpgrader cfg.talosConfigPath cfg.logPath).UpgradeToVersion
                env.k8sEnv vs.kubernetesVersion cp true).2) ∧
    (∀ e, ((applyTalosTestOverride (NewTalosUpgrader cfg.talosConfigPath cfg.logPath)
            currentTalos scenario).UpgradeToVersion env.talosEnv
            vs.talosVersion nodes cfg.githubOwner cfg.githubRepo false).1 = .error e →
       processUpgradeWithTestOverrides cfg env currentK8s currentTalos scenario =
         (.error ("talos upgrade failed: " ++ e),
          .callTalosUpgrade vs.talosVersion ::
            ((applyTalosTestOverride (NewTalosUpgrader cfg.talosConfigPath cfg.logPath)
               currentTalos scenario).UpgradeToVersion env.talosEnv
               vs.talosVersion nodes cfg.githubOwner cfg.githubRepo false).2) ∧
       (processUpgradeWithTestOverrides cfg env currentK8s currentTalos scenario).2.all
         (fun ev => !ev.isK8sLayer) = true) ∧
    (((applyTalosTestOverride (NewTalosUpgrader cfg.talosConfigPath cfg.logPath)
        currentTalos scenario).UpgradeToVersion env.talosEnv
        vs.talosVersion nodes cfg.githubOwner cfg.githubRepo false).1 = .ok () →
       (processUpgradeWithTestOverrides cfg env currentK8s currentTalos scenario).2 =
         .callTalosUpgrade vs.talosVersion ::
           ((applyTalosTestOverride (NewTalosUpgrader cfg.talosConfigPath cfg.logPath)
              currentTalos scenario).UpgradeToVersion env.talosEnv
              vs.talosVersion nodes cfg.githubOwner cfg.githubRepo false).2
           ++ .callK8sUpgrade vs.kubernetesVersion ::
             ((applyK8sTestOverride (NewKubernetesUpgrader cfg.talosConfigPath cfg.logPath)
                currentK8s scenario).UpgradeToVersion
                env.k8sEnv vs.kubernetesVersion cp false).2) := by
  have hlive := dispatch_os_first cfg env vs nodes cp
    (NewTalosUpgrader cfg.talosConfigPath cfg.logPath)
    (NewKubernetesUpgrader cfg.talosConfigPath cfg.logPath) true hfv hpc hn hcp
  have hdiag := dispatch_os_first cfg env vs nodes cp
    (applyTalosTestOverride (NewTalosUpgrader cfg.talosConfigPath cfg.logPath)
      currentTalos scenario)
    (applyK8sTestOverride (NewKubernetesUpgrader cfg.talosConfigPath cfg.logPath)
      currentK8s scenario) false hfv hpc hn hcp
  exact ⟨hlive.1, hlive.2.1, hlive.2.2, hdiag.2.1, hdiag.2.2⟩

/-- Witness for C3: a live dispatch whose Talos node `n2` fails never
reaches the Kubernetes layer; a live dispatch whose Talos phase
succeeds runs the Kubernetes phase after the full Talos trace; the
diagnostics dispatch behaves the same with `executeCommands = false`. -/
theorem c3_witness :
    (processUpgrade cfgW mainEnvFailW).2.all (fun ev => !ev.isK8sLayer) = true ∧
    (processUpgrade cfgW mainEnvW).2 =
      Event.callTalosUpgrade "1.11.0" ::
        ((NewTalosUpgrader cfgW.talosConfigPath cfgW.logPath).UpgradeToVersion
           mainEnvW.talosEnv "1.11.0" ["n1", "n2"] "o" "r" true).2
        ++ Event.callK8sUpgrade "1.33.4" ::
          ((NewKubernetesUpgrader cfgW.talosConfigPath cfgW.logPath).UpgradeToVersion
             mainEnvW.k8sEnv "1.33.4" "n1" true).2 ∧
    (processUpgradeWithTestOverrides cfgW mainEnvW "" "" "").2 =
      Event.callTalosUpgrade "1.11.0" ::
        ((applyTalosTestOverride (NewTalosUpgrader cfgW.talosConfigPath cfgW.logPath)
           "" "").UpgradeToVersion mainEnvW.talosEnv "1.11.0" ["n1", "n2"] "o" "r" false).2
        ++ Event.callK8sUpgrade "1.33.4" ::
          ((applyK8sTestOverride (NewKubernetesUpgrader cfgW.talosConfigPath cfgW.logPath)
             "" "").UpgradeToVersion mainEnvW.k8sEnv "1.33.4" "n1" false).2 := by
  have hfail := c3_os_before_orchestration cfgW mainEnvFailW
    { talosVersion := "1.11.0", kubernetesVersion := "1.33.4" } ["n1", "n2"] "n1"
    "" "" "" rfl rfl rfl rfl
  have hok := c3_os_before_orchestration cfgW mainEnvW
    { talosVersion := "1.11.0", kubernetesVersion := "1.33.4" } ["n1", "n2"] "n1"
    "" "" "" rfl rfl rfl rfl
  refine ⟨(hfail.2.1 ("failed to upgrade node n2: " ++
    "talosctl upgrade command failed for node n2: exit status 1") rfl).2, ?_, ?_⟩
  · exact hok.2.2.1 rfl
  · exact hok.2.2.2.2 rfl

/-- C10: `checkAllTestsPass` inspects the result keys `k8s_upgrade_test`
and `talos_upgrade_test`, which `diagnosticsEndpoint` never writes (the
combined upgrade-logic result is stored under `upgrade_test`, a key not
in the checked list); consequently the summary's `ready` flag is a
function of the four infrastructure probes alone — independent of the
`upgrade_test` sub-check's status for every produced results map — and
is `true` in a concrete run whose `upgrade_test` reports `failed`. -/
theorem c10_ready_ignores_upgrade_test :
    (∀ (cfg : Config) (env : DiagEnv) (scen ck ct : String),
       (diagnosticsResults cfg env scen ck ct).all
         (fun p => !(p.1 == "k8s_upgrade_test") && !(p.1 == "talos_upgrade_test")) = true) ∧
    (∀ (cfg : Config) (env : DiagEnv) (scen ck ct : String),
       diagnosticsReady cfg env scen ck ct =
         (exOk env.main.fetchVersions && exOk env.main.parseConfig &&
          exOk env.bareMetal && exOk env.imageFactory)) ∧
    diagnosticsReady cfgW diagEnvW "" "" "" = true ∧
    (diagnosticsResults cfgW diagEnvW "" "" "").find? (fun p => p.1 == "upgrade_test") =
      some ("upgrade_test", some "failed") := by
  refine ⟨?_, ?_, ?_, ?_⟩
  · intro cfg env scen ck ct
    rcases h1 : env.main.fetchVersions with e1 | v1 <;>
      rcases h2 : env.main.parseConfig with e2 | u2 <;>
      simp [diagnosticsResults, h1, h2]
  · intro cfg env scen ck ct
    rcases h1 : env.main.fetchVersions with e1 | v1 <;>
      rcases h2 : env.main.parseConfig with e2 | u2 <;>
      rcases h3 : env.bareMetal with e3 | b3 <;>
      rcases h4 : env.imageFactory with e4 | i4 <;>
      simp [diagnosticsReady, diagnosticsResults, checkAllTestsPass, checkedTests,
        exOk, h1, h2, h3, h4]
  · rfl
  · rfl

end TalosAutomation
